import Mathlib

/-!
Verification of the sonabuild/kit client protocol engine.

This file gives a shallow embedding of the SDK's core modules
(`src/crypto.js`, `src/session.js`, `src/meta.js`, `src/helpers.js`,
`src/internal-call.js`, `src/intent.js`) and proves properties of the
embedded definitions.

Modelling conventions:
  * JSON values are the inductive `JValue`; JavaScript truthiness is `jsTruthy`.
  * Byte buffers (`Uint8Array`) are `List Nat` whose entries are byte values;
    32-bit words (`Uint32Array` entries) are `Nat` values below `2 ^ 32`.
  * Errors are their JavaScript `Error` message strings (the SDK only ever
    throws `new Error(message)`), and fallible computations return `Except`.
  * External library primitives (@noble/curves x25519, @noble/ciphers
    hsalsa/xsalsa20poly1305, @noble/hashes blake2b, `JSON.stringify`, base64
    codecs) are abstract parameters collected in `CryptoPrims`; everything the
    repository's own code does around them is embedded concretely.
  * The effectful route pipeline is embedded by explicit state passing over a
    `World` that carries the module-level caches, a scripted network oracle,
    the entropy oracles, and observation logs (requests, warnings).
-/

namespace SonaKit

/-- JSON-like values exchanged by the SDK. -/
inductive JValue where
  | null
  | bool (b : Bool)
  | num (n : Int)
  | str (s : String)
  | obj (fields : List (String × JValue))
  | arr (elems : List JValue)

/-- JavaScript truthiness of a JSON value (objects and arrays are truthy). -/
def jsTruthy : JValue → Bool
  | .null => false
  | .bool b => b
  | .num n => n ≠ 0
  | .str s => s ≠ ""
  | .obj _ => true
  | .arr _ => true

/-- Property lookup on an association list of object fields. -/
def fieldGet (fs : List (String × JValue)) (k : String) : Option JValue :=
  match fs with
  | [] => none
  | (k', v) :: rest => if k' = k then some v else fieldGet rest k

/-- Property lookup on a JSON value: `undefined` (absent / non-object) is `none`. -/
def JValue.objGet (v : JValue) (k : String) : Option JValue :=
  match v with
  | .obj fs => fieldGet fs k
  | _ => none

/-- Property assignment on object fields: replace in place, else append
(JavaScript property-set order semantics). -/
def fieldSet (fs : List (String × JValue)) (k : String) (v : JValue) :
    List (String × JValue) :=
  match fs with
  | [] => [(k, v)]
  | (k', v') :: rest =>
    if k' = k then (k, v) :: rest else (k', v') :: fieldSet rest k v

/-- Property assignment on a JSON object (identity on non-objects). -/
def JValue.objSet (j : JValue) (k : String) (v : JValue) : JValue :=
  match j with
  | .obj fs => .obj (fieldSet fs k v)
  | _ => j

/-- Truthiness of a possibly-absent property (`undefined` is falsy). -/
def optTruthy : Option JValue → Bool
  | none => false
  | some v => jsTruthy v

/-- `String.prototype.includes`: substring occurrence test. -/
def strIncludes (hay needle : String) : Bool :=
  hay.data.tails.any (fun t => needle.data.isPrefixOf t)

/-- Error messages thrown by the SDK (`new Error(message)`). -/
abbrev Err := String

/-! ## Sealed-box engine (`src/crypto.js`)

The byte/word conversions and the wiring of `cryptoBoxBeforenm`,
`cryptoBoxSealCompatible` and `encryptForEnclave` are embedded concretely from
the source; the @noble library primitives they call are abstract parameters. -/

/-- The NaCl `sigma` constant from `src/crypto.js` line 14
(the bytes of "expand 32-byte k"). -/
def sigma : List Nat :=
  [101, 120, 112, 97, 110, 100, 32, 51, 50, 45, 98, 121, 116, 101, 32, 107]

/-- `Uint8Array` element access (in-range accesses are the only ones the
source performs; out of range reads default to 0). -/
def byteAt (l : List Nat) (n : Nat) : Nat := (l.get? n).getD 0

/-- One 32-bit word loaded from bytes exactly as the source does:
`b[4j] | (b[4j+1] << 8) | (b[4j+2] << 16) | (b[4j+3] << 24)`. -/
def loadWordLE (b : List Nat) (j : Nat) : Nat :=
  byteAt b (4 * j) ||| byteAt b (4 * j + 1) <<< 8 |||
    byteAt b (4 * j + 2) <<< 16 ||| byteAt b (4 * j + 3) <<< 24

/-- The word-array view of a byte buffer built by the loops in
`cryptoBoxBeforenm` (`src/crypto.js` lines 29-36). -/
def loadWordsLE (b : List Nat) (n : Nat) : List Nat :=
  (List.range n).map (loadWordLE b)

/-- One word stored back to bytes exactly as the source does:
`[w & 0xff, (w >>> 8) & 0xff, (w >>> 16) & 0xff, (w >>> 24) & 0xff]`. -/
def storeWordLE (w : Nat) : List Nat :=
  [w &&& 255, (w >>> 8) &&& 255, (w >>> 16) &&& 255, (w >>> 24) &&& 255]

/-- The byte buffer written by the output loop of `cryptoBoxBeforenm`
(`src/crypto.js` lines 44-50). -/
def storeWordsLE (ws : List Nat) : List Nat :=
  (ws.map storeWordLE).flatten

/-- Abstract interfaces of the external library primitives used by
`src/crypto.js`.  `scalarMult` is fallible because @noble/curves rejects
inputs that are not exactly 32 bytes. -/
structure CryptoPrims where
  hsalsa : List Nat → List Nat → List Nat → List Nat
  blake2b : List Nat → Nat → List Nat
  xsalsaEncrypt : List Nat → List Nat → List Nat → List Nat
  x25519pub : List Nat → List Nat
  scalarMult : List Nat → List Nat → Except Err (List Nat)
  stringify : JValue → String
  utf8encode : String → List Nat
  b64decode : String → List Nat
  b64encode : List Nat → String

/-- `cryptoBoxBeforenm` (`src/crypto.js` lines 21-53): derive the symmetric
key by running HSalsa20 on the shared secret with the `sigma` constant and an
all-zero input block, converting bytes to words and back. -/
def cryptoBoxBeforenm (pr : CryptoPrims) (sharedSecret : List Nat) : List Nat :=
  storeWordsLE
    (pr.hsalsa (loadWordsLE sigma 4) (loadWordsLE sharedSecret 8)
      (List.replicate 4 0))

/-- `Uint8Array.prototype.set`: overwrite `src.length` bytes of `buf`
starting at `off`. -/
def uset (buf : List Nat) (off : Nat) (src : List Nat) : List Nat :=
  buf.take off ++ src ++ buf.drop (off + src.length)

/-- `cryptoBoxSealCompatible` (`src/crypto.js` lines 62-90).  The fresh
ephemeral private key (`randomBytes(32)` in the source) is the explicit
`ephPriv` argument. -/
def cryptoBoxSealCompatible (pr : CryptoPrims) (ephPriv msg recipientPubKey : List Nat) :
    Except Err (List Nat) :=
  let ephPub := pr.x25519pub ephPriv
  match pr.scalarMult ephPriv recipientPubKey with
  | .error e => .error e
  | .ok shared =>
    let key := cryptoBoxBeforenm pr shared
    let nonceInput := uset (uset (List.replicate 64 0) 0 ephPub) 32 recipientPubKey
    let nonce := pr.blake2b nonceInput 24
    let ciphertext := pr.xsalsaEncrypt key nonce msg
    .ok (ephPub ++ ciphertext)

/-- `encryptForEnclave` (`src/crypto.js` lines 130-145): JSON-serialize the
payload, base64-decode the session public key, seal, base64-encode.  Any
failure inside `cryptoBoxSealCompatible` propagates (the source has no
try/catch here). -/
def encryptForEnclave (pr : CryptoPrims) (ephPriv : List Nat) (payload : JValue)
    (sessionPubKeyB64 : String) : Except Err String :=
  let msg := pr.utf8encode (pr.stringify payload)
  let recipientPubKey := pr.b64decode sessionPubKeyB64
  match cryptoBoxSealCompatible pr ephPriv msg recipientPubKey with
  | .error e => .error e
  | .ok sealed => .ok (pr.b64encode sealed)

/-! ## Attestation verifier / Intent (`src/intent.js`)

`Intent` is `Object.assign(this, obj)`: a bag of JSON fields.  The @noble
ed25519 `verify` and the base64 decoder are abstract fallible primitives. -/

/-- The `Intent` value type: the constructor copies all response fields. -/
structure Intent where
  fields : List (String × JValue)

/-- Property access `this.<k>` on an Intent. -/
def Intent.field (i : Intent) (k : String) : Option JValue :=
  fieldGet i.fields k

/-- Abstract primitives used by `Intent.verify`: `base64ToUint8Array` (throws
on non-string input in the browser path) and `ed.verify(sig, msg, pub)`
(throws on malformed inputs). -/
structure VerifyPrims where
  b64dec : Option JValue → Except Err (List Nat)
  edVerify : List Nat → List Nat → List Nat → Except Err Bool

/-- The body of the `try` block of `Intent.verify`
(`src/intent.js` lines 53-78): decode the three base64 fields, then run
Ed25519 verification; any primitive failure escapes as an exception. -/
def Intent.verifyInner (pr : VerifyPrims) (i : Intent) : Except Err Bool :=
  match pr.b64dec (i.field "serializedMessageB64") with
  | .error e => .error e
  | .ok msg =>
    match pr.b64dec (i.field "integritySigB64") with
    | .error e => .error e
    | .ok sig =>
      match pr.b64dec (i.field "integrityPubkeyB64") with
      | .error e => .error e
      | .ok pub => pr.edVerify sig msg pub

/-- `Intent.verify` (`src/intent.js` lines 38-84): missing/empty fields give
`false` before any decoding; the `catch` turns any internal failure into
`false`. -/
def Intent.verify (pr : VerifyPrims) (i : Intent) : Except Err Bool :=
  if !optTruthy (i.field "serializedMessageB64") ||
      !optTruthy (i.field "integritySigB64") ||
      !optTruthy (i.field "integrityPubkeyB64") then
    .ok false
  else
    match i.verifyInner pr with
    | .ok b => .ok b
    | .error _ => .ok false

/-- `Intent.confirm` (`src/intent.js` lines 91-97).  The second component is
the observation trace: the list of argument lists `sendFn` is invoked with. -/
def Intent.confirm {ρ : Type} (pr : VerifyPrims) (i : Intent)
    (sendFn : List Intent → ρ) : Except Err ρ × List (List Intent) :=
  match i.verify pr with
  | .error e => (.error e, [])
  | .ok false => (.error "Sona: integrity verification failed", [])
  | .ok true => (.ok (sendFn [i]), [[i]])

/-! ### Concrete inputs used by witness theorems -/

/-- Verify primitives that always succeed (witness input). -/
def okVerifyPrims : VerifyPrims where
  b64dec := fun _ => .ok []
  edVerify := fun _ _ _ => .ok true

/-- Verify primitives that always throw (witness input). -/
def throwVerifyPrims : VerifyPrims where
  b64dec := fun _ => .error "TypeError: argument must be a string"
  edVerify := fun _ _ _ => .error "Error: invalid signature length"

/-- An Intent with all three verification fields present (witness input). -/
def intentFull : Intent :=
  ⟨[("serializedMessageB64", .str "bXNn"), ("integritySigB64", .str "c2ln"),
    ("integrityPubkeyB64", .str "cHVi")]⟩

/-- An Intent with no fields at all (witness input). -/
def intentEmpty : Intent := ⟨[]⟩

/-! ## The route pipeline
(`src/session.js`, `src/meta.js`, `src/helpers.js`, `src/internal-call.js`)

Embedded by explicit state passing over a `World`.  Network responses come
from a scripted oracle consumed one per `fetch`; requests and warnings are
logged as observations; `attempts` counts entries into `_callRouteInternal`. -/

/-- An HTTP response as the client observes it: status, raw body text, and
the result of `res.json()` (`none` means the parse throws). -/
structure HttpResponse where
  status : Nat
  text : String
  json : Option JValue

/-- An outbound HTTP request as recorded in the request log. -/
structure Request where
  url : String
  method : String
  reqHeaders : List (String × String)
  body : Option JValue

/-- The per-client context (`ctx` in the source). -/
structure Ctx where
  baseUrl : String
  apiKey : Option String
  wallet : Option String
  origin : String
  extraHeaders : List (String × String)
  timeout : Nat

/-- Mutable world: module caches, scripted network, entropy oracles, and
observation logs. -/
structure World where
  sessionCache : JValue
  metaCache : JValue
  net : Nat → HttpResponse
  netCalls : Nat
  reqLog : List Request
  warnings : List String
  attempts : Nat
  nowSec : Nat
  uuidGen : Nat → String
  uuidCalls : Nat
  cryptoPrims : CryptoPrims
  rand32 : Nat → List Nat
  randCalls : Nat

/-- `Response.ok`: status in the 2xx range. -/
def isOkStatus (s : Nat) : Bool := 200 ≤ s && s < 300

/-- Perform one network fetch: consume the next scripted response and log
the request. -/
def recordFetch (w : World) (req : Request) : HttpResponse × World :=
  (w.net w.netCalls,
    { w with netCalls := w.netCalls + 1, reqLog := w.reqLog ++ [req] })

/-- `console.warn`: append to the warning log. -/
def warnW (w : World) (msg : String) : World :=
  { w with warnings := w.warnings ++ [msg] }

/-- `res.json()`: return the parsed body or throw a syntax error. -/
def parseJson (res : HttpResponse) : Except Err JValue :=
  match res.json with
  | some v => .ok v
  | none => .error "SyntaxError: Unexpected token in JSON"

/-- The optional API-key header block `...(apiKey ? { 'x-api-key': apiKey } : {})`. -/
def apiKeyHeaders (apiKey : Option String) : List (String × String) :=
  match apiKey with
  | some k => if k ≠ "" then [("x-api-key", k)] else []
  | none => []

/-- The `GET {baseUrl}/session` request issued by `getSession`. -/
def sessionRequest (ctx : Ctx) : Request :=
  { url := ctx.baseUrl ++ "/session", method := "GET",
    reqHeaders := apiKeyHeaders ctx.apiKey, body := none }

/-- `getSession` (`src/session.js` lines 45-77): `if (cache) return cache`
(JavaScript truthiness on the nullable cache), else fetch
`GET {baseUrl}/session`, failing on non-2xx, caching the parsed body. -/
def getSessionM (ctx : Ctx) (w : World) : Except Err JValue × World :=
  if jsTruthy w.sessionCache then (.ok w.sessionCache, w)
  else
    let (res, w₁) := recordFetch w (sessionRequest ctx)
    if isOkStatus res.status then
      match parseJson res with
      | .error e => (.error e, w₁)
      | .ok j => (.ok j, { w₁ with sessionCache := j })
    else (.error ("Sona: /session failed " ++ toString res.status), w₁)

/-- `clearSessionCache` (`src/session.js` lines 82-84): `cache = null`. -/
def clearSessionCacheM (w : World) : World :=
  { w with sessionCache := .null }

/-- The `GET {baseUrl}/meta` request issued by `getMeta`. -/
def metaRequest (ctx : Ctx) : Request :=
  { url := ctx.baseUrl ++ "/meta", method := "GET",
    reqHeaders := apiKeyHeaders ctx.apiKey, body := none }

/-- `getMeta` (`src/meta.js` lines 42-59): `if (cache) return cache`, else
fetch and cache. -/
def getMetaM (ctx : Ctx) (w : World) : Except Err JValue × World :=
  if jsTruthy w.metaCache then (.ok w.metaCache, w)
  else
    let (res, w₁) := recordFetch w (metaRequest ctx)
    if isOkStatus res.status then
      match parseJson res with
      | .error e => (.error e, w₁)
      | .ok j => (.ok j, { w₁ with metaCache := j })
    else (.error ("Sona: /meta failed " ++ toString res.status), w₁)

/-- `clearMetaCache` (`src/meta.js` lines 76-78): `cache = null`. -/
def clearMetaCacheM (w : World) : World :=
  { w with metaCache := .null }

/-- `getRouteInfo` (`src/meta.js` lines 67-71): look up
`meta.routes["/" + pathArray.join("/")]`. -/
def getRouteInfo (meta : JValue) (pathArray : List String) : Option JValue :=
  match meta.objGet "routes" with
  | some r => r.objGet ("/" ++ String.intercalate "/" pathArray)
  | none => none

/-- `routeKey.replace(/\//g, '.')`. -/
def slashToDot (s : String) : String :=
  String.map (fun c => if c = '/' then '.' else c) s

/-- The warning emitted on a route-registry miss. -/
def routeMissWarning (routeKey : String) : String :=
  "[Sona] Protocol " ++ slashToDot routeKey ++ " not available for this API key"

/-- `fetchRouteMetadata` (`src/helpers.js` lines 17-28): `none` (plus a
warning) when the route is absent or falsy in the registry. -/
def fetchRouteMetadataM (ctx : Ctx) (pathArray : List String) (w : World) :
    Except Err (Option JValue) × World :=
  let mres := getMetaM ctx w
  match mres.1 with
  | .error e => (.error e, mres.2)
  | .ok meta =>
    match getRouteInfo meta pathArray with
    | some r =>
      if jsTruthy r then (.ok (some r), mres.2)
      else (.ok none, warnW mres.2 (routeMissWarning (String.intercalate "/" pathArray)))
    | none => (.ok none, warnW mres.2 (routeMissWarning (String.intercalate "/" pathArray)))

/-- `generateRequestId` (`src/helpers.js` lines 34-36): one `crypto.randomUUID()`. -/
def generateRequestIdM (w : World) : String × World :=
  (w.uuidGen w.uuidCalls, { w with uuidCalls := w.uuidCalls + 1 })

/-- `buildHeaders` (`src/helpers.js` lines 44-51). -/
def buildHeaders (ctx : Ctx) (requestId : String) : List (String × String) :=
  [("content-type", "application/json")] ++ apiKeyHeaders ctx.apiKey ++
    [("x-request-id", requestId)] ++ ctx.extraHeaders

/-- The warning emitted by `handle404` (`src/helpers.js` lines 85-88). -/
def notSupportedWarning (routeKey : String) : String :=
  "[Sona] Protocol " ++ routeKey ++ " not supported"

/-- The result of one dispatcher call: `null`, plain JSON data, or an Intent. -/
inductive CallResult where
  | nullResult
  | data (v : JValue)
  | intent (i : Intent)

/-- The outbound body built at the top of `executePlainRoute`
(`src/helpers.js` lines 99-102): `payload || {}`, then
`if (ctx.wallet && !body.context) body.context = { wallet: ctx.wallet }`. -/
def plainBody (wallet : Option String) (payload : JValue) : JValue :=
  let body := if jsTruthy payload then payload else .obj []
  match wallet with
  | some wstr =>
    if wstr ≠ "" && !optTruthy (body.objGet "context") then
      body.objSet "context" (.obj [("wallet", .str wstr)])
    else body
  | none => body

/-- `executePlainRoute` (`src/helpers.js` lines 98-132). -/
def executePlainRouteM (ctx : Ctx) (routeKey : String) (payload : JValue)
    (w : World) : Except Err CallResult × World :=
  let body := plainBody ctx.wallet payload
  let (requestId, w₁) := generateRequestIdM w
  let (res, w₂) := recordFetch w₁
    { url := ctx.baseUrl ++ "/" ++ routeKey, method := "POST",
      reqHeaders := buildHeaders ctx requestId, body := some body }
  if res.status = 404 then
    (.ok .nullResult, warnW w₂ (notSupportedWarning routeKey))
  else if isOkStatus res.status then
    match parseJson res with
    | .error e => (.error e, w₂)
    | .ok data => (.ok (.data data), w₂)
  else (.error ("Sona: API error " ++ toString res.status), w₂)

/-- `createEnvelope` (`src/helpers.js` lines 140-147): fresh timestamp and
request id around the payload. -/
def createEnvelopeM (ctx : Ctx) (payload : JValue) (w : World) : JValue × World :=
  let (rid, w₁) := generateRequestIdM w
  (.obj [("t", .num (w.nowSec : Int)), ("rid", .str rid),
    ("origin", .str ctx.origin), ("payload", payload)], w₁)

/-- `buildAttestedRequestBody` (`src/helpers.js` lines 155-167):
`includeAttestation` is forwarded only when the payload defines it. -/
def buildAttestedRequestBody (ctB64 : String) (payload : JValue) : JValue :=
  match payload.objGet "includeAttestation" with
  | some v => .obj [("ctB64", .str ctB64), ("paramsHint", payload),
      ("includeAttestation", v)]
  | none => .obj [("ctB64", .str ctB64), ("paramsHint", payload)]

/-- `data.error === 'stale ciphertext'`. -/
def isStaleSignal (data : JValue) : Bool :=
  match data.objGet "error" with
  | some (.str s) => s = "stale ciphertext"
  | _ => false

/-- The response fields of an object value (`{...data}`). -/
def objFields : JValue → List (String × JValue)
  | .obj fs => fs
  | _ => []

/-- `new Intent({ ...data, integrityPubkeyB64: session.integrityPubkeyB64 })`;
an absent session key is modelled as `null` (same falsiness as `undefined`). -/
def mkIntent (data session : JValue) : Intent :=
  ⟨fieldSet (objFields data) "integrityPubkeyB64"
    ((session.objGet "integrityPubkeyB64").getD .null)⟩

/-- `processAttestedResponse` (`src/helpers.js` lines 188-200): throw the
stale-ciphertext retry signal, wrap a signed response in an Intent, or pass
the raw data through. -/
def processAttestedResponse (data session : JValue) : Except Err CallResult :=
  if isStaleSignal data then .error "stale ciphertext"
  else if optTruthy (data.objGet "serializedMessageB64") &&
      optTruthy (data.objGet "integritySigB64") then
    .ok (.intent (mkIntent data session))
  else .ok (.data data)

/-- The encryption step of `executeAttestedRoute`: one fresh ephemeral key
from the entropy oracle, then the embedded `encryptForEnclave`.  A non-string
session key makes the base64 decode throw before any entropy is consumed. -/
def encryptStep (envelope session : JValue) (w : World) : Except Err String × World :=
  match session.objGet "encryptionPubKeyB64" with
  | some (.str kb64) =>
    (encryptForEnclave w.cryptoPrims (w.rand32 w.randCalls) envelope kb64,
      { w with randCalls := w.randCalls + 1 })
  | _ => (.error "TypeError: argument must be a string", w)

/-- `executeAttestedRoute` (`src/helpers.js` lines 210-263). -/
def executeAttestedRouteM (ctx : Ctx) (routeKey : String) (payload : JValue)
    (w : World) : Except Err CallResult × World :=
  let sres := getSessionM ctx w
  match sres.1 with
  | .error e => (.error e, sres.2)
  | .ok session =>
    let env := createEnvelopeM ctx payload sres.2
    let est := encryptStep env.1 session env.2
    match est.1 with
    | .error e => (.error e, est.2)
    | .ok ctB64 =>
      let requestBody := buildAttestedRequestBody ctB64 payload
      let rid := generateRequestIdM est.2
      let fet := recordFetch rid.2
        { url := ctx.baseUrl ++ "/" ++ routeKey, method := "POST",
          reqHeaders := buildHeaders ctx rid.1, body := some requestBody }
      let res := fet.1
      if res.status = 404 then
        (.ok .nullResult, warnW fet.2 (notSupportedWarning routeKey))
      else if isOkStatus res.status then
        match parseJson res with
        | .error e => (.error e, fet.2)
        | .ok data =>
          match processAttestedResponse data session with
          | .error e => (.error e, fet.2)
          | .ok r => (.ok r, fet.2)
      else
        (.error ("Sona: Attested API error " ++ toString res.status ++ " " ++ res.text), fet.2)

/-- `_callRouteInternal` (`src/internal-call.js` lines 41-67); entering it
bumps the ghost `attempts` counter. -/
def callRouteInternalM (ctx : Ctx) (pathArray : List String) (payload : JValue)
    (w : World) : Except Err CallResult × World :=
  let w₀ := { w with attempts := w.attempts + 1 }
  let routeKey := String.intercalate "/" pathArray
  let fres := fetchRouteMetadataM ctx pathArray w₀
  match fres.1 with
  | .error e => (.error e, fres.2)
  | .ok none => (.ok .nullResult, fres.2)
  | .ok (some route) =>
    if optTruthy (route.objGet "attested") then
      executeAttestedRouteM ctx routeKey payload fres.2
    else
      executePlainRouteM ctx routeKey payload fres.2

/-- `_callRoute` (`src/internal-call.js` lines 21-32): one retry, with the
session cache cleared, when the caught error message contains
"stale ciphertext". -/
def callRouteM (ctx : Ctx) (pathArray : List String) (payload : JValue)
    (w : World) : Except Err CallResult × World :=
  let ires := callRouteInternalM ctx pathArray payload w
  match ires.1 with
  | .ok v => (.ok v, ires.2)
  | .error e =>
    if strIncludes e "stale ciphertext" then
      callRouteInternalM ctx pathArray payload (clearSessionCacheM ires.2)
    else (.error e, ires.2)

/-! ### Concrete pipeline inputs used by witness theorems -/

/-- Crypto primitives that reject keys that are not 32 bytes, matching the
@noble/curves input contract (witness input). -/
def strictCryptoPrims : CryptoPrims where
  hsalsa := fun _ _ _ => List.replicate 8 0
  blake2b := fun _ n => List.replicate n 0
  xsalsaEncrypt := fun _ _ m => m
  x25519pub := fun _ => List.replicate 32 2
  scalarMult := fun _ k =>
    if k.length = 32 then .ok (List.replicate 32 3)
    else .error "Error: invalid key length"
  stringify := fun _ => "{}"
  utf8encode := fun s => s.data.map Char.toNat
  b64decode := fun s => s.data.map Char.toNat
  b64encode := fun _ => "ct"

/-- Crypto primitives whose scalar multiplication always succeeds
(witness input for pipeline scenarios). -/
def looseCryptoPrims : CryptoPrims where
  hsalsa := fun _ _ _ => List.replicate 8 0
  blake2b := fun _ n => List.replicate n 0
  xsalsaEncrypt := fun _ _ m => m
  x25519pub := fun _ => List.replicate 32 2
  scalarMult := fun _ _ => .ok (List.replicate 32 3)
  stringify := fun _ => "{}"
  utf8encode := fun s => s.data.map Char.toNat
  b64decode := fun s => s.data.map Char.toNat
  b64encode := fun _ => "ct"

/-- A session body as returned by `GET /session` (witness input). -/
def sessionJson : JValue :=
  .obj [("encryptionPubKeyB64", .str "ZW5j"), ("integrityPubkeyB64", .str "aW50"),
    ("mode", .str "tee")]

/-- A route registry with one attested and one plain route (witness input). -/
def metaJson : JValue :=
  .obj [("routes", .obj [("/a/b", .obj [("attested", .bool true)]),
    ("/p/q", .obj [("attested", .bool false)])])]

/-- A baseline client context (witness input). -/
def baseCtx : Ctx :=
  { baseUrl := "https://api.example", apiKey := some "key1",
    wallet := some "W1", origin := "https://app.example",
    extraHeaders := [], timeout := 30000 }

/-- A baseline world: cold caches and a network that answers 200 `{}`
(witness input). -/
def baseWorld : World :=
  { sessionCache := .null, metaCache := .null,
    net := fun _ => ⟨200, "{}", some (.obj [])⟩,
    netCalls := 0, reqLog := [], warnings := [], attempts := 0,
    nowSec := 1700000000,
    uuidGen := fun n => "uuid-" ++ toString n, uuidCalls := 0,
    cryptoPrims := looseCryptoPrims,
    rand32 := fun _ => List.replicate 32 1, randCalls := 0 }

/-- A world whose every response is the stale-ciphertext signal, with warm
caches (witness input). -/
def staleWorld : World :=
  { baseWorld with
    sessionCache := sessionJson, metaCache := metaJson,
    net := fun _ => ⟨200, "stale", some (.obj [("error", .str "stale ciphertext")])⟩ }

/-! # Theorems -/

/-! ### Little-endian characterization lemmas for the sealed-box engine -/

lemma byteAt_lt (l : List Nat) (n : Nat) (h : ∀ x ∈ l, x < 256) :
    byteAt l n < 256 := by
  unfold byteAt
  cases hg : l.get? n with
  | none => simp
  | some x => simpa using h x (List.get?_mem hg)

lemma lor_shiftLeft_eq_add (a b n : Nat) (h : a < 2 ^ n) :
    a ||| b <<< n = 2 ^ n * b + a := by
  rw [Nat.shiftLeft_eq, Nat.lor_comm, Nat.mul_comm]
  exact (Nat.mul_add_lt_is_or h b).symm

/-- The source's word-loading expression computes the little-endian value
of four consecutive bytes. -/
lemma loadWordLE_eq (b : List Nat) (j : Nat) (h : ∀ x ∈ b, x < 256) :
    loadWordLE b j =
      byteAt b (4 * j) + 2 ^ 8 * byteAt b (4 * j + 1) +
        2 ^ 16 * byteAt b (4 * j + 2) + 2 ^ 24 * byteAt b (4 * j + 3) := by
  have h0 := byteAt_lt b (4 * j) h
  have h1 := byteAt_lt b (4 * j + 1) h
  have h2 := byteAt_lt b (4 * j + 2) h
  have h3 := byteAt_lt b (4 * j + 3) h
  unfold loadWordLE
  rw [lor_shiftLeft_eq_add _ _ 8 (by omega)]
  rw [lor_shiftLeft_eq_add _ _ 16 (by norm_num; omega)]
  rw [lor_shiftLeft_eq_add _ _ 24 (by norm_num; omega)]
  ring

/-- The source's word-storing expression emits the little-endian bytes of a
32-bit word. -/
lemma storeWordLE_eq (w : Nat) :
    storeWordLE w = [w % 256, w / 2 ^ 8 % 256, w / 2 ^ 16 % 256, w / 2 ^ 24 % 256] := by
  unfold storeWordLE
  have h8 : ∀ v : Nat, v &&& 255 = v % 256 := fun v => Nat.and_pow_two_sub_one_eq_mod v 8
  simp only [Nat.shiftRight_eq_div_pow, h8]

lemma uset_append (buf src₁ src₂ : List Nat) (hb : buf.length = 64)
    (h1 : src₁.length = 32) (h2 : src₂.length = 32) :
    uset (uset buf 0 src₁) 32 src₂ = src₁ ++ src₂ := by
  unfold uset
  simp only [List.take_zero, List.nil_append, List.length_append]
  rw [h1, h2]
  have hz : (0 : Nat) + 32 = 32 := rfl
  rw [hz]
  have hd : (src₁ ++ buf.drop 32).drop (32 + 32) = [] := by
    apply List.drop_eq_nil_of_le
    simp [h1, hb]
  have ht : (src₁ ++ buf.drop 32).take 32 = src₁ := by
    rw [List.take_append_of_le_length (by omega)]
    exact List.take_of_length_le (by omega)
  rw [hd, ht, List.append_nil]

/-! ### C1: confirm gates sendFn on verify -/

/-- **C1**: `confirm(sendFn)` first runs `verify()`.  If `verify` returns
`false`, `confirm` fails with the integrity-verification error and `sendFn`
is invoked zero times (empty invocation trace); if `verify` returns `true`,
`sendFn` is invoked exactly once with `[intent]` and its result is returned
unchanged. -/
theorem confirm_gates_send :
    ∀ (ρ : Type) (pr : VerifyPrims) (i : Intent) (sendFn : List Intent → ρ),
      (Intent.verify pr i = .ok false →
        Intent.confirm pr i sendFn =
          (.error "Sona: integrity verification failed", [])) ∧
      (Intent.verify pr i = .ok true →
        Intent.confirm pr i sendFn = (.ok (sendFn [i]), [[i]])) := by
  intro ρ pr i sendFn
  constructor <;> intro h <;> unfold Intent.confirm <;> rw [h]

/-- Witness for C1 at a concrete Intent, oracle and callback. -/
theorem confirm_gates_send_witness :
    Intent.confirm okVerifyPrims intentFull (fun l => l.length) =
      (.ok 1, [[intentFull]]) :=
  (confirm_gates_send Nat okVerifyPrims intentFull (fun l => l.length)).2 rfl

/-! ### C4: verify never throws -/

/-- **C4**: `verify` never throws: it always returns a boolean; a missing or
empty payload, signature, or public key gives `false` for every crypto
oracle (so before any cryptographic work); and any decode/verification
failure inside the `try` block degrades to `false`. -/
theorem verify_nonthrowing :
    (∀ (pr : VerifyPrims) (i : Intent), ∃ b, Intent.verify pr i = .ok b) ∧
    (∀ (pr : VerifyPrims) (i : Intent),
      (optTruthy (i.field "serializedMessageB64") = false ∨
        optTruthy (i.field "integritySigB64") = false ∨
        optTruthy (i.field "integrityPubkeyB64") = false) →
      Intent.verify pr i = .ok false) ∧
    (∀ (pr : VerifyPrims) (i : Intent) (e : Err),
      Intent.verifyInner pr i = .error e → Intent.verify pr i = .ok false) := by
  refine ⟨fun pr i => ?_, fun pr i h => ?_, fun pr i e h => ?_⟩
  · unfold Intent.verify
    split
    · exact ⟨false, rfl⟩
    · cases hv : Intent.verifyInner pr i with
      | ok b => exact ⟨b, rfl⟩
      | error e => exact ⟨false, rfl⟩
  · unfold Intent.verify
    have hc : (!optTruthy (i.field "serializedMessageB64") ||
        !optTruthy (i.field "integritySigB64") ||
        !optTruthy (i.field "integrityPubkeyB64")) = true := by
      rcases h with h | h | h <;> simp [h]
    simp [hc]
  · unfold Intent.verify
    split
    · rfl
    · rw [h]

/-- Witness for C4: an empty Intent verifies to `false`, and a full Intent
with throwing crypto primitives also verifies to `false`. -/
theorem verify_nonthrowing_witness :
    Intent.verify okVerifyPrims intentEmpty = .ok false ∧
      Intent.verify throwVerifyPrims intentFull = .ok false :=
  ⟨verify_nonthrowing.2.1 okVerifyPrims intentEmpty (Or.inl rfl),
    verify_nonthrowing.2.2 throwVerifyPrims intentFull
      "TypeError: argument must be a string" rfl⟩

/-! ### C3: sealed-box construction -/

/-- **C3**: for every plaintext and 32-byte recipient key, the sealed box is
`ephemeralPublicKey ++ AEAD-output`, where the symmetric key is the HSalsa20
core applied to the X25519 shared secret with the "expand 32-byte k"
constant and an all-zero input block under little-endian byte/word
conversion, the nonce is `BLAKE2b-24(ephemeralPublicKey ++ recipientKey)`,
and the AEAD output is the XSalsa20-Poly1305 encryption (ciphertext plus
tag) of the plaintext under that key and nonce. -/
theorem sealedBox_construction :
    (∀ (pr : CryptoPrims) (ephPriv msg rpk shared : List Nat),
      pr.scalarMult ephPriv rpk = .ok shared →
      (pr.x25519pub ephPriv).length = 32 →
      rpk.length = 32 →
      cryptoBoxSealCompatible pr ephPriv msg rpk =
        .ok (pr.x25519pub ephPriv ++
          pr.xsalsaEncrypt (cryptoBoxBeforenm pr shared)
            (pr.blake2b (pr.x25519pub ephPriv ++ rpk) 24) msg)) ∧
    (∀ (pr : CryptoPrims) (shared : List Nat),
      cryptoBoxBeforenm pr shared =
        storeWordsLE (pr.hsalsa (loadWordsLE sigma 4) (loadWordsLE shared 8)
          (List.replicate 4 0))) ∧
    sigma = ("expand 32-byte k").data.map Char.toNat ∧
    (∀ (b : List Nat) (j : Nat), (∀ x ∈ b, x < 256) →
      loadWordLE b j =
        byteAt b (4 * j) + 2 ^ 8 * byteAt b (4 * j + 1) +
          2 ^ 16 * byteAt b (4 * j + 2) + 2 ^ 24 * byteAt b (4 * j + 3)) ∧
    (∀ w : Nat,
      storeWordLE w = [w % 256, w / 2 ^ 8 % 256, w / 2 ^ 16 % 256, w / 2 ^ 24 % 256]) := by
  refine ⟨fun pr ephPriv msg rpk shared hsm hpl hrl => ?_, fun pr shared => rfl,
    by decide, loadWordLE_eq, storeWordLE_eq⟩
  have hu := uset_append (List.replicate 64 0) (pr.x25519pub ephPriv) rpk
    (by simp) hpl hrl
  simp only [cryptoBoxSealCompatible, hsm]
  rw [hu]

/-- Witness for C3 at concrete primitives and 32-byte keys. -/
theorem sealedBox_construction_witness :
    cryptoBoxSealCompatible strictCryptoPrims (List.replicate 32 1) [7, 8, 9]
        (List.replicate 32 4) =
      .ok (strictCryptoPrims.x25519pub (List.replicate 32 1) ++
        strictCryptoPrims.xsalsaEncrypt
          (cryptoBoxBeforenm strictCryptoPrims (List.replicate 32 3))
          (strictCryptoPrims.blake2b
            (strictCryptoPrims.x25519pub (List.replicate 32 1) ++
              List.replicate 32 4) 24) [7, 8, 9]) :=
  sealedBox_construction.1 strictCryptoPrims (List.replicate 32 1) [7, 8, 9]
    (List.replicate 32 4) (List.replicate 32 3) rfl rfl rfl

/-! ### C5: malformed recipient-key length fails -/

/-- **C5**: `encryptForEnclave` fails whenever the decoded recipient key is
not exactly 32 bytes: the X25519 primitive (whose @noble contract rejects
non-32-byte keys, stated as the second hypothesis) throws, and the source
has no handler, so the failure propagates out of the encryption entry
point. -/
theorem encryptForEnclave_badKeyLength :
    ∀ (pr : CryptoPrims) (ephPriv : List Nat) (payload : JValue)
      (kb64 : String) (e : Err),
      (pr.b64decode kb64).length ≠ 32 →
      (∀ priv k, k.length ≠ 32 → pr.scalarMult priv k = .error e) →
      encryptForEnclave pr ephPriv payload kb64 = .error e := by
  intro pr ephPriv payload kb64 e hlen hcontract
  have hc := hcontract ephPriv (pr.b64decode kb64) hlen
  simp [encryptForEnclave, cryptoBoxSealCompatible, hc]

/-- Witness for C5: a 5-byte key is rejected. -/
theorem encryptForEnclave_badKeyLength_witness :
    encryptForEnclave strictCryptoPrims (List.replicate 32 1) (.obj [])
        "short" = .error "Error: invalid key length" :=
  encryptForEnclave_badKeyLength strictCryptoPrims (List.replicate 32 1)
    (.obj []) "short" "Error: invalid key length" (by decide)
    (fun priv k hk => by simp [strictCryptoPrims, hk])

/-! ### C6: session store caching -/

/-- **C6**: a cold `get` performs exactly one `GET {baseUrl}/session` (with
the API-key header exactly when one is configured, by definition of
`sessionRequest`), fails with the status-carrying error on a non-2xx
response, and caches the parsed body on success; a warm `get` returns the
cached session with no network access and no state change, unconditionally;
`invalidate` clears the cache unconditionally; and the `get` after an
`invalidate` performs a fresh fetch. -/
theorem session_cache_policy :
    (∀ (ctx : Ctx) (w : World), jsTruthy w.sessionCache = true →
      getSessionM ctx w = (.ok w.sessionCache, w)) ∧
    (∀ (ctx : Ctx) (w : World), jsTruthy w.sessionCache = false →
      (getSessionM ctx w).2.reqLog = w.reqLog ++ [sessionRequest ctx] ∧
        (getSessionM ctx w).2.netCalls = w.netCalls + 1) ∧
    (∀ (ctx : Ctx) (w : World), jsTruthy w.sessionCache = false →
      isOkStatus (w.net w.netCalls).status = false →
      (getSessionM ctx w).1 =
        .error ("Sona: /session failed " ++ toString (w.net w.netCalls).status)) ∧
    (∀ (ctx : Ctx) (w : World) (j : JValue), jsTruthy w.sessionCache = false →
      isOkStatus (w.net w.netCalls).status = true →
      (w.net w.netCalls).json = some j →
      (getSessionM ctx w).1 = .ok j ∧
        (getSessionM ctx w).2.sessionCache = j) ∧
    (∀ w : World, (clearSessionCacheM w).sessionCache = .null) ∧
    (∀ (ctx : Ctx) (w : World),
      (getSessionM ctx (clearSessionCacheM w)).2.reqLog =
        w.reqLog ++ [sessionRequest ctx]) := by
  have hcold : ∀ (ctx : Ctx) (w : World), jsTruthy w.sessionCache = false →
      (getSessionM ctx w).2.reqLog = w.reqLog ++ [sessionRequest ctx] ∧
        (getSessionM ctx w).2.netCalls = w.netCalls + 1 := by
    intro ctx w h
    unfold getSessionM
    rw [h]
    simp only [Bool.false_eq_true, if_false, recordFetch, parseJson]
    split
    · split <;> simp
    · simp
  refine ⟨fun ctx w h => ?_, hcold, fun ctx w h hs => ?_,
    fun ctx w j h hs hj => ?_, fun w => rfl, fun ctx w => ?_⟩
  · unfold getSessionM
    rw [h]
    simp
  · unfold getSessionM
    rw [h]
    simp [recordFetch, hs]
  · unfold getSessionM
    rw [h]
    simp [recordFetch, parseJson, hs, hj]
  · exact (hcold ctx (clearSessionCacheM w) rfl).1

/-- Witness for C6: a warm world returns the cached session unchanged, and
a cold world against a 500 network fails with the status in the error. -/
theorem session_cache_policy_witness :
    getSessionM baseCtx { baseWorld with sessionCache := sessionJson } =
      (.ok sessionJson, { baseWorld with sessionCache := sessionJson }) ∧
      (getSessionM baseCtx
        { baseWorld with net := fun _ => ⟨500, "boom", none⟩ }).1 =
        .error "Sona: /session failed 500" :=
  ⟨session_cache_policy.1 baseCtx
      { baseWorld with sessionCache := sessionJson } rfl,
    session_cache_policy.2.2.1 baseCtx
      { baseWorld with net := fun _ => ⟨500, "boom", none⟩ } rfl rfl⟩

/-! ### C8: plain-route body construction (corrected)

The claim's second clause fails: the source tests `!body.context`
(truthiness), not presence, so a payload that supplies a *falsy* `context`
(for example `context: null`) is not left unchanged — the falsy value is
overwritten with `{wallet}`. -/

/-- **C8 counterexample**: with wallet "W1" and payload
`{"context": null}` — which *does* supply a `context` field — the outbound
body is not the payload unchanged. -/
theorem plainBody_suppliedNullContext_not_unchanged :
    plainBody (some "W1") (.obj [("context", .null)]) ≠
      .obj [("context", .null)] := by
  intro h
  simp [plainBody, JValue.objGet, fieldGet, optTruthy, jsTruthy,
    JValue.objSet, fieldSet] at h

/-- **C8 (amended)**: the outbound body of a plain route is
`plainBody wallet payload`; with a configured wallet, a payload object whose
`context` field is absent **or falsy** gets `context: {wallet}` set
(in particular `{amount: 100}` with wallet "W1" yields both `amount: 100`
and `context: {wallet: "W1"}`); the body is the payload unchanged only when
the payload supplies a truthy `context`. -/
theorem plain_route_body_merge :
    (∀ (ctx : Ctx) (routeKey : String) (payload : JValue) (w : World),
      (executePlainRouteM ctx routeKey payload w).2.reqLog =
        w.reqLog ++ [Request.mk (ctx.baseUrl ++ "/" ++ routeKey) "POST"
          (buildHeaders ctx (w.uuidGen w.uuidCalls))
          (some (plainBody ctx.wallet payload))]) ∧
    (∀ (wstr : String) (payload : JValue), wstr ≠ "" →
      jsTruthy payload = true →
      optTruthy (payload.objGet "context") = false →
      plainBody (some wstr) payload =
        payload.objSet "context" (.obj [("wallet", .str wstr)])) ∧
    (∀ (wallet : Option String) (payload : JValue),
      jsTruthy payload = true →
      optTruthy (payload.objGet "context") = true →
      plainBody wallet payload = payload) ∧
    plainBody (some "W1") (.obj [("amount", .num 100)]) =
      .obj [("amount", .num 100), ("context", .obj [("wallet", .str "W1")])] := by
  refine ⟨fun ctx routeKey payload w => ?_, fun wstr payload hw hp hc => ?_,
    fun wallet payload hp hc => ?_, rfl⟩
  · simp only [executePlainRouteM, generateRequestIdM, recordFetch, parseJson]
    split
    · simp [warnW]
    · split
      · split <;> simp
      · simp
  · simp [plainBody, hw, hp, hc]
  · cases wallet with
    | none => simp [plainBody, hp]
    | some wstr => simp [plainBody, hp, hc]

/-- Witness for C8 (amended) at the concrete scenario from the spec. -/
theorem plain_route_body_merge_witness :
    plainBody (some "W1") (.obj [("amount", .num 100)]) =
        .obj [("amount", .num 100), ("context", .obj [("wallet", .str "W1")])] ∧
      plainBody (some "W1") (.obj [("context", .obj [("wallet", .str "X")])]) =
        .obj [("context", .obj [("wallet", .str "X")])] :=
  ⟨plain_route_body_merge.2.2.2,
    plain_route_body_merge.2.2.1 (some "W1")
      (.obj [("context", .obj [("wallet", .str "X")])]) rfl rfl⟩

/-! ### Attempt accounting for the dispatcher -/

lemma getSessionM_attempts (ctx : Ctx) (w : World) :
    (getSessionM ctx w).2.attempts = w.attempts := by
  simp only [getSessionM, recordFetch, parseJson]
  repeat' split
  all_goals rfl

lemma getMetaM_attempts (ctx : Ctx) (w : World) :
    (getMetaM ctx w).2.attempts = w.attempts := by
  simp only [getMetaM, recordFetch, parseJson]
  repeat' split
  all_goals rfl

lemma warnW_attempts (w : World) (m : String) : (warnW w m).attempts = w.attempts := rfl

lemma encryptStep_attempts (env sess : JValue) (w : World) :
    (encryptStep env sess w).2.attempts = w.attempts := by
  unfold encryptStep
  repeat' split
  all_goals rfl

lemma fetchRouteMetadataM_attempts (ctx : Ctx) (pa : List String) (w : World) :
    (fetchRouteMetadataM ctx pa w).2.attempts = w.attempts := by
  have hg := getMetaM_attempts ctx w
  simp only [fetchRouteMetadataM]
  repeat' split
  all_goals exact hg

lemma executePlainRouteM_attempts (ctx : Ctx) (rk : String) (payload : JValue)
    (w : World) : (executePlainRouteM ctx rk payload w).2.attempts = w.attempts := by
  simp only [executePlainRouteM, generateRequestIdM, recordFetch, parseJson, warnW]
  repeat' split
  all_goals rfl

lemma executeAttestedRouteM_attempts (ctx : Ctx) (rk : String) (payload : JValue)
    (w : World) : (executeAttestedRouteM ctx rk payload w).2.attempts = w.attempts := by
  have hg := getSessionM_attempts ctx w
  simp only [executeAttestedRouteM]
  repeat' split
  all_goals
    simp [warnW, recordFetch, generateRequestIdM, encryptStep_attempts,
      createEnvelopeM, hg]

lemma callRouteInternalM_attempts (ctx : Ctx) (pa : List String)
    (payload : JValue) (w : World) :
    (callRouteInternalM ctx pa payload w).2.attempts = w.attempts + 1 := by
  have hf := fetchRouteMetadataM_attempts ctx pa { w with attempts := w.attempts + 1 }
  simp only [callRouteInternalM]
  repeat' split
  · exact hf
  · exact hf
  · rw [executeAttestedRouteM_attempts]
    exact hf
  · rw [executePlainRouteM_attempts]
    exact hf

/-! ### Dispatcher retry helpers -/

lemma callRouteM_onOk (ctx : Ctx) (pa : List String) (payload : JValue)
    (w : World) (v : CallResult) (w₁ : World)
    (h : callRouteInternalM ctx pa payload w = (.ok v, w₁)) :
    callRouteM ctx pa payload w = (.ok v, w₁) := by
  unfold callRouteM
  rw [h]

lemma callRouteM_onStale (ctx : Ctx) (pa : List String) (payload : JValue)
    (w : World) (e : Err) (w₁ : World)
    (h : callRouteInternalM ctx pa payload w = (.error e, w₁))
    (hs : strIncludes e "stale ciphertext" = true) :
    callRouteM ctx pa payload w =
      callRouteInternalM ctx pa payload (clearSessionCacheM w₁) := by
  unfold callRouteM
  rw [h]
  simp [hs]

lemma callRouteM_onNonStale (ctx : Ctx) (pa : List String) (payload : JValue)
    (w : World) (e : Err) (w₁ : World)
    (h : callRouteInternalM ctx pa payload w = (.error e, w₁))
    (hs : strIncludes e "stale ciphertext" = false) :
    callRouteM ctx pa payload w = (.error e, w₁) := by
  unfold callRouteM
  rw [h]
  simp [hs]

/-! ### C2: stale-ciphertext retry policy -/

/-- **C2**: when `_callRouteInternal` fails with a stale-ciphertext error the
session cache is invalidated and the call is retried exactly once (the final
result is the single rerun from the cleared cache, and the attempt counter
rises by exactly 2); if that retry fails again — with any error, in
particular another stale-ciphertext signal — that error is terminal; an
error not signalling stale ciphertext propagates unchanged with no retry
(attempt counter rises by exactly 1). -/
theorem staleCiphertext_retry_policy :
    ∀ (ctx : Ctx) (pa : List String) (payload : JValue) (w : World),
      (∀ v w₁, callRouteInternalM ctx pa payload w = (.ok v, w₁) →
        callRouteM ctx pa payload w = (.ok v, w₁)) ∧
      (∀ e w₁, callRouteInternalM ctx pa payload w = (.error e, w₁) →
        strIncludes e "stale ciphertext" = true →
        callRouteM ctx pa payload w =
            callRouteInternalM ctx pa payload (clearSessionCacheM w₁) ∧
          (clearSessionCacheM w₁).sessionCache = .null ∧
          (callRouteM ctx pa payload w).2.attempts = w.attempts + 2) ∧
      (∀ e w₁ e₂ w₂, callRouteInternalM ctx pa payload w = (.error e, w₁) →
        strIncludes e "stale ciphertext" = true →
        callRouteInternalM ctx pa payload (clearSessionCacheM w₁) = (.error e₂, w₂) →
        callRouteM ctx pa payload w = (.error e₂, w₂)) ∧
      (∀ e w₁, callRouteInternalM ctx pa payload w = (.error e, w₁) →
        strIncludes e "stale ciphertext" = false →
        callRouteM ctx pa payload w = (.error e, w₁) ∧
          (callRouteM ctx pa payload w).2.attempts = w.attempts + 1) := by
  intro ctx pa payload w
  refine ⟨callRouteM_onOk ctx pa payload w, fun e w₁ h hs => ?_,
    fun e w₁ e₂ w₂ h hs h₂ => ?_, fun e w₁ h hs => ?_⟩
  · have hr := callRouteM_onStale ctx pa payload w e w₁ h hs
    refine ⟨hr, rfl, ?_⟩
    rw [hr]
    have h1 : w₁.attempts = w.attempts + 1 := by
      have := callRouteInternalM_attempts ctx pa payload w
      rw [h] at this
      exact this
    have h2 := callRouteInternalM_attempts ctx pa payload (clearSessionCacheM w₁)
    rw [h2]
    simp [clearSessionCacheM, h1]
  · rw [callRouteM_onStale ctx pa payload w e w₁ h hs, h₂]
  · have hr := callRouteM_onNonStale ctx pa payload w e w₁ h hs
    refine ⟨hr, ?_⟩
    rw [hr]
    have := callRouteInternalM_attempts ctx pa payload w
    rw [h] at this
    exact this

/-- Witness for C2: a world whose attested responses always signal stale
ciphertext makes the dispatcher clear the session cache and rerun the
internal call exactly once. -/
theorem staleCiphertext_retry_policy_witness :
    callRouteM baseCtx ["a", "b"] (.obj []) staleWorld =
      callRouteInternalM baseCtx ["a", "b"] (.obj [])
        (clearSessionCacheM
          (callRouteInternalM baseCtx ["a", "b"] (.obj []) staleWorld).2) :=
  (((staleCiphertext_retry_policy baseCtx ["a", "b"] (.obj []) staleWorld).2.1
    "stale ciphertext"
    (callRouteInternalM baseCtx ["a", "b"] (.obj []) staleWorld).2
    (Prod.ext rfl rfl) (by decide))).1

/-! ### C9: the retry predicate is a substring test -/

lemma strIncludes_iff (hay needle : String) :
    strIncludes hay needle = true ↔ needle.data <:+: hay.data := by
  unfold strIncludes
  rw [List.any_eq_true]
  constructor
  · rintro ⟨t, ht, hp⟩
    rw [List.mem_tails] at ht
    rw [List.isPrefixOf_iff_prefix] at hp
    exact List.infix_iff_prefix_suffix.mpr ⟨t, hp, ht⟩
  · intro h
    rcases List.infix_iff_prefix_suffix.mp h with ⟨t, hp, ht⟩
    exact ⟨t, (List.mem_tails _ _).mpr ht, List.isPrefixOf_iff_prefix.mpr hp⟩

lemma strIncludes_append_right (a b needle : String)
    (h : strIncludes b needle = true) :
    strIncludes (a ++ b) needle = true := by
  rw [strIncludes_iff] at h ⊢
  rw [String.data_append]
  exact h.trans (List.suffix_append a.data b.data).isInfix

/-- **C9**: the dispatcher's retry predicate is a substring test on the error
message.  A non-2xx, non-404 attested response whose body text contains
"stale ciphertext" makes the executor throw the attested-API error carrying
that text; any error message containing the phrase — in particular that one —
satisfies the predicate; and whenever the internal call fails with such a
message, the dispatcher invalidates the session cache and retries once. -/
theorem retry_predicate_is_substring_test :
    (∀ (ctx : Ctx) (rk : String) (payload : JValue) (w : World)
      (kb64 ct : String),
      jsTruthy w.sessionCache = true →
      w.sessionCache.objGet "encryptionPubKeyB64" = some (.str kb64) →
      encryptForEnclave w.cryptoPrims (w.rand32 w.randCalls)
        (.obj [("t", .num (w.nowSec : Int)), ("rid", .str (w.uuidGen w.uuidCalls)),
          ("origin", .str ctx.origin), ("payload", payload)]) kb64 = .ok ct →
      (w.net w.netCalls).status ≠ 404 →
      isOkStatus (w.net w.netCalls).status = false →
      (executeAttestedRouteM ctx rk payload w).1 =
        .error ("Sona: Attested API error " ++ toString (w.net w.netCalls).status ++
          " " ++ (w.net w.netCalls).text)) ∧
    (∀ (status : Nat) (text : String),
      strIncludes text "stale ciphertext" = true →
      strIncludes ("Sona: Attested API error " ++ toString status ++ " " ++ text)
        "stale ciphertext" = true) ∧
    (∀ (ctx : Ctx) (pa : List String) (payload : JValue) (w : World) (e : Err),
      (callRouteInternalM ctx pa payload w).1 = .error e →
      strIncludes e "stale ciphertext" = true →
      callRouteM ctx pa payload w =
        callRouteInternalM ctx pa payload
          (clearSessionCacheM (callRouteInternalM ctx pa payload w).2)) := by
  refine ⟨fun ctx rk payload w kb64 ct hsess hkey henc h404 hok => ?_,
    fun status text h => ?_, fun ctx pa payload w e h hs => ?_⟩
  · simp [executeAttestedRouteM, getSessionM, hsess, createEnvelopeM,
      generateRequestIdM, encryptStep, hkey, henc, recordFetch, h404, hok]
  · exact strIncludes_append_right
      ("Sona: Attested API error " ++ toString status ++ " ") text
      "stale ciphertext" h
  · simp only [callRouteM]
    rw [h]
    simp [hs]

/-- Witness for C9: a 500 response whose body text contains the phrase
yields the attested-API error message, and that message satisfies the retry
predicate. -/
theorem retry_predicate_is_substring_test_witness :
    (executeAttestedRouteM baseCtx "a/b" (.obj [])
        { baseWorld with
          sessionCache := sessionJson,
          net := fun _ => ⟨500, "enclave: stale ciphertext", none⟩ }).1 =
      .error "Sona: Attested API error 500 enclave: stale ciphertext" ∧
    strIncludes "Sona: Attested API error 500 enclave: stale ciphertext"
      "stale ciphertext" = true :=
  ⟨retry_predicate_is_substring_test.1 baseCtx "a/b" (.obj [])
      { baseWorld with
        sessionCache := sessionJson,
        net := fun _ => ⟨500, "enclave: stale ciphertext", none⟩ }
      "ZW5j" "ct" rfl rfl rfl (by decide) (by decide),
    retry_predicate_is_substring_test.2.1 500 "enclave: stale ciphertext"
      (by decide)⟩

/-! ### C7: absent routes and 404s are not errors -/

/-- **C7**: a route-registry miss (key absent from the routes mapping, or
bound to a falsy entry) makes the dispatcher return the null result plus a
warning, not an error; an HTTP 404 from the operation endpoint makes both
the plain and the attested executor return the null result plus a warning,
not an error. -/
theorem absent_route_and_404_yield_null :
    (∀ (ctx : Ctx) (pa : List String) (payload : JValue) (w : World) (meta : JValue),
      (getMetaM ctx { w with attempts := w.attempts + 1 }).1 = .ok meta →
      optTruthy (getRouteInfo meta pa) = false →
      callRouteInternalM ctx pa payload w =
        (.ok .nullResult,
          warnW (getMetaM ctx { w with attempts := w.attempts + 1 }).2
            (routeMissWarning (String.intercalate "/" pa)))) ∧
    (∀ (ctx : Ctx) (rk : String) (payload : JValue) (w : World),
      (w.net w.netCalls).status = 404 →
      (executePlainRouteM ctx rk payload w).1 = .ok .nullResult ∧
        (executePlainRouteM ctx rk payload w).2.warnings =
          w.warnings ++ [notSupportedWarning rk]) ∧
    (∀ (ctx : Ctx) (rk : String) (payload : JValue) (w : World)
      (kb64 ct : String),
      jsTruthy w.sessionCache = true →
      w.sessionCache.objGet "encryptionPubKeyB64" = some (.str kb64) →
      encryptForEnclave w.cryptoPrims (w.rand32 w.randCalls)
        (.obj [("t", .num (w.nowSec : Int)), ("rid", .str (w.uuidGen w.uuidCalls)),
          ("origin", .str ctx.origin), ("payload", payload)]) kb64 = .ok ct →
      (w.net w.netCalls).status = 404 →
      (executeAttestedRouteM ctx rk payload w).1 = .ok .nullResult ∧
        (executeAttestedRouteM ctx rk payload w).2.warnings =
          w.warnings ++ [notSupportedWarning rk]) := by
  refine ⟨fun ctx pa payload w meta hm hr => ?_,
    fun ctx rk payload w h404 => ?_,
    fun ctx rk payload w kb64 ct hsess hkey henc h404 => ?_⟩
  · simp only [callRouteInternalM, fetchRouteMetadataM, hm]
    cases hg : getRouteInfo meta pa with
    | none => simp [hg]
    | some r =>
      rw [hg] at hr
      simp only [optTruthy] at hr
      simp [hg, hr]
  · constructor <;>
      simp [executePlainRouteM, generateRequestIdM, recordFetch, h404, warnW]
  · constructor <;>
      simp [executeAttestedRouteM, getSessionM, hsess, createEnvelopeM,
        generateRequestIdM, encryptStep, hkey, henc, recordFetch, h404, warnW]

/-- Witness for C7: a 404 on a plain route resolves to the null result with
the not-supported warning, and a registry miss resolves to the null result
with the not-available warning. -/
theorem absent_route_and_404_yield_null_witness :
    (executePlainRouteM baseCtx "p/q" (.obj [])
        { baseWorld with net := fun _ => ⟨404, "", none⟩ }).1 =
        .ok .nullResult ∧
      callRouteInternalM baseCtx ["x", "y"] (.obj [])
          { baseWorld with metaCache := metaJson } =
        (.ok .nullResult,
          warnW { baseWorld with
                  metaCache := metaJson, attempts := baseWorld.attempts + 1 }
            (routeMissWarning "x/y")) :=
  ⟨(absent_route_and_404_yield_null.2.1 baseCtx "p/q" (.obj [])
      { baseWorld with net := fun _ => ⟨404, "", none⟩ } rfl).1,
    absent_route_and_404_yield_null.1 baseCtx ["x", "y"] (.obj [])
      { baseWorld with metaCache := metaJson } metaJson rfl rfl⟩

/-! ### C10: unsigned attested responses pass through raw -/

/-- **C10**: a successful attested response (2xx, JSON parsed, no
stale-ciphertext signal) that lacks `serializedMessageB64` or lacks
`integritySigB64` (in JavaScript truthiness terms) is returned as the raw
parsed object — no Intent is constructed around it, so the verify/confirm
gate does not apply to that result. -/
theorem unsigned_attested_response_passthrough :
    (∀ (data session : JValue),
      isStaleSignal data = false →
      (optTruthy (data.objGet "serializedMessageB64") &&
        optTruthy (data.objGet "integritySigB64")) = false →
      processAttestedResponse data session = .ok (.data data)) ∧
    (∀ (ctx : Ctx) (rk : String) (payload : JValue) (w : World)
      (kb64 ct : String) (data : JValue),
      jsTruthy w.sessionCache = true →
      w.sessionCache.objGet "encryptionPubKeyB64" = some (.str kb64) →
      encryptForEnclave w.cryptoPrims (w.rand32 w.randCalls)
        (.obj [("t", .num (w.nowSec : Int)), ("rid", .str (w.uuidGen w.uuidCalls)),
          ("origin", .str ctx.origin), ("payload", payload)]) kb64 = .ok ct →
      isOkStatus (w.net w.netCalls).status = true →
      (w.net w.netCalls).json = some data →
      isStaleSignal data = false →
      (optTruthy (data.objGet "serializedMessageB64") &&
        optTruthy (data.objGet "integritySigB64")) = false →
      (executeAttestedRouteM ctx rk payload w).1 = .ok (.data data)) := by
  have hproc : ∀ (data session : JValue),
      isStaleSignal data = false →
      (optTruthy (data.objGet "serializedMessageB64") &&
        optTruthy (data.objGet "integritySigB64")) = false →
      processAttestedResponse data session = .ok (.data data) := by
    intro data session hst hfields
    simp [processAttestedResponse, hst, hfields]
  refine ⟨hproc, fun ctx rk payload w kb64 ct data hsess hkey henc hok hjson
    hst hfields => ?_⟩
  have h404 : ¬((w.net w.netCalls).status = 404) := by
    simp only [isOkStatus, Bool.and_eq_true, decide_eq_true_eq] at hok
    omega
  simp [executeAttestedRouteM, getSessionM, hsess, createEnvelopeM,
    generateRequestIdM, encryptStep, hkey, henc, recordFetch, parseJson,
    h404, hok, hjson, hproc data w.sessionCache hst hfields]

/-- Witness for C10: a 2xx body with neither signature field comes back as
the raw data object. -/
theorem unsigned_attested_response_passthrough_witness :
    (executeAttestedRouteM baseCtx "a/b" (.obj [])
        { baseWorld with
          sessionCache := sessionJson,
          net := fun _ => ⟨200, "", some (.obj [("foo", .str "bar")])⟩ }).1 =
      .ok (.data (.obj [("foo", .str "bar")])) :=
  unsigned_attested_response_passthrough.2 baseCtx "a/b" (.obj [])
    { baseWorld with
      sessionCache := sessionJson,
      net := fun _ => ⟨200, "", some (.obj [("foo", .str "bar")])⟩ }
    "ZW5j" "ct" (.obj [("foo", .str "bar")])
    rfl rfl rfl rfl rfl rfl rfl

end SonaKit
